import Mathlib

/-!
Verification of the container-logistics optimization engine
(`python_optimization/container_optimizer.py`).

The Python module builds mixed-integer models with OR-Tools and extracts
JSON-shaped results.  The shallow embedding below translates:

* the dataclasses `Port`, `Container`, `Route` (floats become `Int`,
  which is faithful for every property checked here: the code only adds,
  multiplies and compares these values);
* the pure helper functions (`_is_compatible`,
  `_calculate_assignment_cost`, `_create_fallback_solution`, route and
  port lookups, `load_data` field validation);
* the constraint systems the optimizers hand to the external solver.
  The solver itself (SCIP / CP routing search) is outside the
  repository, so a solve is modelled as an outcome value: either the
  backend is unavailable, or an exception was raised, or the solver
  returned a status together with an assignment of the decision
  variables.  A solution returned with OPTIMAL status satisfies every
  constraint the code added, which is expressed here by predicates
  (`FeasibleRedistribution`, `FeasibleAssignment`) that list exactly the
  constraints built in the source;
* the result dictionaries, as structures whose fields are `Option`s:
  `none` models an absent dictionary key;
* the CLI `main`, as a function from an input scenario to the pair of
  output streams and the exit code.  Printing a python value as JSON is
  modelled by a constructor carrying that value; the exact serialized
  text is not modelled.
-/

namespace ContainerOpt

/-- The `Port` dataclass.  `demand_forecast` is the `lstm_forecast` list. -/
structure Port where
  name : String
  current_empty : Int
  capacity : Int
  demand_forecast : List Int
  storage_cost_per_day : Int
  handling_cost : Int
  coordinates : Int × Int
deriving DecidableEq

/-- The `Container` dataclass. -/
structure Container where
  id : String
  type : String
  current_port : String
  dwell_time : Int
  next_booking_port : Option String
  priority : Int
deriving DecidableEq

/-- The `Route` dataclass. -/
structure Route where
  from_port : String
  to_port : String
  distance_km : Int
  transport_cost : Int
  transit_time_hours : Int
  capacity_teu : Int
deriving DecidableEq

/-- The state a `ContainerOptimizer` instance holds after `load_data`:
`self.ports` (a dict keyed by name, here the list of its values),
`self.containers` and `self.routes`. -/
structure ContainerOptimizer where
  ports : List Port
  containers : List Container
  routes : List Route
deriving DecidableEq

/-- `pywraplp.Solver.OPTIMAL`. -/
def OPTIMAL : Nat := 0

/-- `list(self.ports.keys())`. -/
def port_names (net : ContainerOptimizer) : List String :=
  net.ports.map Port.name

/-- `list(set(c.type for c in self.containers))`: the container types,
deduplicated (the Python set has arbitrary order; first-occurrence order
is used here, and nothing below depends on the order). -/
def container_types (net : ContainerOptimizer) : List String :=
  (net.containers.map Container.type).dedup

/-- Dictionary access `self.ports[name]`.  In the source `name` always
ranges over the dict keys, so the lookup never misses. -/
def find_port (net : ContainerOptimizer) (name : String) : Option Port :=
  net.ports.find? (fun p => p.name == name)

/-- `self.ports[name].capacity` (0 for a name that is not a key; the
source never looks one up). -/
def port_capacity (net : ContainerOptimizer) (name : String) : Int :=
  match find_port net name with
  | some p => p.capacity
  | none => 0

/-- `self.ports[name].storage_cost_per_day`. -/
def port_storage_cost (net : ContainerOptimizer) (name : String) : Int :=
  match find_port net name with
  | some p => p.storage_cost_per_day
  | none => 0

/-- The `for route in self.routes: if route.from_port == f and
route.to_port == t: ... break` loops: the first matching route. -/
def find_route (routes : List Route) (fp tp : String) : Option Route :=
  routes.find? (fun r => r.from_port == fp && r.to_port == tp)

/-- Route transport cost with the default of 50 used by the
redistribution objective when no route matches. -/
def route_cost_lookup (routes : List Route) (fp tp : String) : Int :=
  match find_route routes fp tp with
  | some r => r.transport_cost
  | none => 50

/-- Route capacity with the default of 100 used by the route capacity
constraints when no route matches. -/
def route_capacity_lookup (routes : List Route) (fp tp : String) : Int :=
  match find_route routes fp tp with
  | some r => r.capacity_teu
  | none => 100

/-! ## Assignment optimizer (`optimize_assignment` and helpers) -/

/-- A container dict as consumed by `optimize_assignment`
(fields `id`, `type`, `current_port`). -/
structure ContainerReq where
  id : String
  type : String
  current_port : String
deriving DecidableEq

/-- A demand dict as consumed by `optimize_assignment` (fields `id`,
`port`, `required_type`; `priority` is read with `.get(\x27priority\x270)`
semantics, hence optional). -/
structure DemandReq where
  id : String
  port : String
  required_type : String
  priority : Option Int
deriving DecidableEq

/-- Placeholder used to state positional access `containers[i]`; every
index handled below is in range, so the placeholder is never the value
read. -/
def dummy_container : ContainerReq := ⟨"", "", ""⟩

/-- Placeholder for positional access `demands[j]`. -/
def dummy_demand : DemandReq := ⟨"", "", "", none⟩

/-- The `compatibility_map` literal dict inside `_is_compatible`,
with `.get(container_type, [])` semantics. -/
def compatibility_map (container_type : String) : List String :=
  if container_type = "20GP" then ["20GP"]
  else if container_type = "40GP" then ["40GP", "40HC"]
  else if container_type = "40HC" then ["40HC", "40GP"]
  else []

/-- `_is_compatible`: `required_type in compatibility_map.get(container_type, [])`. -/
def _is_compatible (container_type required_type : String) : Bool :=
  (compatibility_map container_type).contains required_type

/-- `_calculate_assignment_cost`. -/
def _calculate_assignment_cost (routes : List Route) (container : ContainerReq)
    (demand : DemandReq) : Int :=
  let base_cost : Int := 10
  let distance_cost : Int :=
    match find_route routes container.current_port demand.port with
    | some r => r.transport_cost
    | none => 0
  let type_penalty : Int :=
    if _is_compatible container.type demand.required_type then 0 else 1000
  let urgency_bonus : Int := -(demand.priority.getD 0) * 5
  base_cost + distance_cost + type_penalty + urgency_bonus

/-- The constraints `optimize_assignment` adds over the binary variables
`x[i][j]`: each container in at most one pair, each demand in at most one
pair, and `x[i][j] == 0` for every incompatible pair.  A solution the
solver returns with OPTIMAL status satisfies all of them. -/
def FeasibleAssignment (containers : List ContainerReq) (demands : List DemandReq)
    (x : Nat → Nat → Bool) : Prop :=
  (∀ i, i < containers.length →
    (List.range demands.length).countP (fun j => x i j) ≤ 1) ∧
  (∀ j, j < demands.length →
    (List.range containers.length).countP (fun i => x i j) ≤ 1) ∧
  (∀ i, i < containers.length → ∀ j, j < demands.length →
    _is_compatible (containers.getD i dummy_container).type
      (demands.getD j dummy_demand).required_type = false → x i j = false)

/-- The pairs `(i, j)` with `x[i][j].solution_value() > 0.5`, in the
iteration order of `_extract_assignment_solution`. -/
def assigned_pairs (n m : Nat) (x : Nat → Nat → Bool) : List (Nat × Nat) :=
  (List.range n).flatMap (fun i =>
    (List.range m).filterMap (fun j => if x i j then some (i, j) else none))

/-- One entry of the `assignments` list built by
`_extract_assignment_solution`. -/
structure AssignmentEntry where
  container_id : String
  demand_id : String
  from_port : String
  to_port : String
  container_type : String
  cost : Int
deriving DecidableEq

/-- Builds one `assignments` entry for a selected pair. -/
def make_assignment_entry (routes : List Route) (container : ContainerReq)
    (demand : DemandReq) : AssignmentEntry :=
  ⟨container.id, demand.id, container.current_port, demand.port, container.type,
    _calculate_assignment_cost routes container demand⟩

/-- The assignment-mode result dict; `none` models an absent key. -/
structure AssignmentResult where
  assignments : Option (List AssignmentEntry)
  unassigned_containers : Option (List ContainerReq)
  unmet_demands : Option (List DemandReq)
  total_cost : Option Int
  error : Option String
deriving DecidableEq

/-- `solver.Objective().Value()` of the assignment model at solution `x`. -/
def assignment_total_cost (routes : List Route) (containers : List ContainerReq)
    (demands : List DemandReq) (x : Nat → Nat → Bool) : Int :=
  ((List.range containers.length).map (fun i =>
    ((List.range demands.length).map (fun j =>
      if x i j then
        _calculate_assignment_cost routes (containers.getD i dummy_container)
          (demands.getD j dummy_demand)
      else 0)).sum)).sum

/-- `_extract_assignment_solution`. -/
def _extract_assignment_solution (routes : List Route)
    (containers : List ContainerReq) (demands : List DemandReq)
    (x : Nat → Nat → Bool) : AssignmentResult :=
  let pairs := assigned_pairs containers.length demands.length x
  let entries := pairs.map (fun p =>
    make_assignment_entry routes (containers.getD p.1 dummy_container)
      (demands.getD p.2 dummy_demand))
  let assigned_containers := pairs.map Prod.fst
  let assigned_demands := pairs.map Prod.snd
  let unassigned := (List.range containers.length).filterMap (fun i =>
    if assigned_containers.contains i then none
    else some (containers.getD i dummy_container))
  let unmet := (List.range demands.length).filterMap (fun j =>
    if assigned_demands.contains j then none
    else some (demands.getD j dummy_demand))
  ⟨some entries, some unassigned, some unmet,
    some (assignment_total_cost routes containers demands x), none⟩

/-- Outcome of the assignment solve: the SCIP backend is external, so it
is a parameter.  `solved status x` models `solver.Solve()` returning
`status` with variable values `x`. -/
inductive AssignSolve where
  | unavailable
  | excn (msg : String)
  | solved (status : Nat) (x : Nat → Nat → Bool)

/-- `optimize_assignment`.  The empty-input short circuit returns the
dict `{"assignments": [], "unassigned_containers": containers}` (note:
no `unmet_demands` and no `total_cost` key). -/
def optimize_assignment (routes : List Route) (containers : List ContainerReq)
    (demands : List DemandReq) (solve : AssignSolve) : AssignmentResult :=
  if containers.isEmpty || demands.isEmpty then
    ⟨some [], some containers, none, none, none⟩
  else
    match solve with
    | .unavailable => ⟨none, none, none, none, some "Assignment solver not available"⟩
    | .excn msg => ⟨none, none, none, none, some msg⟩
    | .solved status x =>
      if status = OPTIMAL then _extract_assignment_solution routes containers demands x
      else ⟨none, none, none, none,
        some ("Assignment optimization failed: " ++ toString status)⟩

/-! ## Redistribution optimizer (`optimize_container_redistribution`) -/

/-- The 7-day optimization window. -/
def time_horizon : Nat := 7

/-- `len([c for c in self.containers if c.current_port == port and c.type == ctype])`. -/
def current_inventory (net : ContainerOptimizer) (port ctype : String) : Nat :=
  (net.containers.filter (fun c => c.current_port == port && c.type == ctype)).length

/-- The demand subtracted on day `t`: `self.ports[port].demand_forecast[t]`
when `t` is in range, else 0 (the code guards with
`if t < len(...demand_forecast)`). -/
def lstm_demand (net : ContainerOptimizer) (port : String) (t : Nat) : Int :=
  match find_port net port with
  | some p => p.demand_forecast.getD t 0
  | none => 0

/-- `inflow`: the sum of the flow variables into `port` from every other
port, for one type and day. -/
def flow_inflow (net : ContainerOptimizer) (flow : String → String → String → Nat → Int)
    (port ctype : String) (t : Nat) : Int :=
  (((port_names net).filter (fun other => other != port)).map
    (fun other => flow other port ctype t)).sum

/-- `outflow`: the sum of the flow variables out of `port`. -/
def flow_outflow (net : ContainerOptimizer) (flow : String → String → String → Nat → Int)
    (port ctype : String) (t : Nat) : Int :=
  (((port_names net).filter (fun other => other != port)).map
    (fun other => flow port other ctype t)).sum

/-- All constraints `optimize_container_redistribution` adds: variable
bounds (`IntVar(0, 1000, ...)` for flow, `IntVar(0, capacity, ...)` for
storage), day-0 flow conservation without demand, day-`t` conservation
with the LSTM demand subtracted, total-storage port capacity, and
per-pair route capacity.  A solution returned with OPTIMAL status
satisfies all of them. -/
def FeasibleRedistribution (net : ContainerOptimizer)
    (flow : String → String → String → Nat → Int)
    (storage : String → String → Nat → Int) : Prop :=
  (∀ fp ∈ port_names net, ∀ tp ∈ port_names net, fp ≠ tp →
    ∀ ct ∈ container_types net, ∀ t, t < time_horizon →
      0 ≤ flow fp tp ct t ∧ flow fp tp ct t ≤ 1000) ∧
  (∀ p ∈ port_names net, ∀ ct ∈ container_types net, ∀ t, t < time_horizon →
      0 ≤ storage p ct t ∧ storage p ct t ≤ port_capacity net p) ∧
  (∀ p ∈ port_names net, ∀ ct ∈ container_types net,
      storage p ct 0 = (current_inventory net p ct : Int)
        + flow_inflow net flow p ct 0 - flow_outflow net flow p ct 0) ∧
  (∀ p ∈ port_names net, ∀ ct ∈ container_types net, ∀ t, t < time_horizon → 0 < t →
      storage p ct t = storage p ct (t - 1)
        + flow_inflow net flow p ct t - flow_outflow net flow p ct t
        - lstm_demand net p t) ∧
  (∀ p ∈ port_names net, ∀ t, t < time_horizon →
      ((container_types net).map (fun ct => storage p ct t)).sum ≤ port_capacity net p) ∧
  (∀ fp ∈ port_names net, ∀ tp ∈ port_names net, fp ≠ tp → ∀ t, t < time_horizon →
      ((container_types net).map (fun ct => flow fp tp ct t)).sum
        ≤ route_capacity_lookup net.routes fp tp)

/-- One entry of the extracted `relocations` list. -/
structure Relocation where
  from_port : String
  to_port : String
  container_type : String
  quantity : Int
  day : Nat
  priority : String
deriving DecidableEq

/-- The relocation entries one `(from_port, to_port, ctype)` triple
contributes: one entry per day with positive flow, `day` reported
1-based (`t + 1`), priority `"high"` within the first three days. -/
def reloc_entries_for (flow : String → String → String → Nat → Int)
    (fp tp ct : String) : List Relocation :=
  (List.range time_horizon).filterMap (fun t =>
    if 0 < flow fp tp ct t then
      some ⟨fp, tp, ct, flow fp tp ct t, t + 1, if t ≤ 2 then "high" else "medium"⟩
    else none)

/-- The `relocations` list built by `_extract_redistribution_solution`,
in its loop order. -/
def extract_relocations (net : ContainerOptimizer)
    (flow : String → String → String → Nat → Int) : List Relocation :=
  (port_names net).flatMap (fun fp =>
    (port_names net).flatMap (fun tp =>
      if fp == tp then []
      else (container_types net).flatMap (fun ct => reloc_entries_for flow fp tp ct)))

/-- One `storage_plan[port][ctype]` row: the storage values across the
horizon. -/
def storage_plan_entry (storage : String → String → Nat → Int)
    (port ctype : String) : List Int :=
  (List.range time_horizon).map (fun t => storage port ctype t)

/-- The full `storage_plan` mapping, as an association list in loop
order. -/
def extract_storage_plan (net : ContainerOptimizer)
    (storage : String → String → Nat → Int) :
    List (String × List (String × List Int)) :=
  (port_names net).map (fun p =>
    (p, (container_types net).map (fun ct => (ct, storage_plan_entry storage p ct))))

/-- Quantity total of the relocation entries satisfying a predicate. -/
def reloc_sum (pred : Relocation → Bool) (l : List Relocation) : Int :=
  ((l.filter pred).map Relocation.quantity).sum

/-- Sum of the returned relocation quantities into `port` for one type on
(0-based) day `t`; the extraction labels that day `t + 1`. -/
def reloc_inflow (relocs : List Relocation) (port ctype : String) (t : Nat) : Int :=
  reloc_sum (fun r => r.to_port == port && (r.container_type == ctype && r.day == t + 1)) relocs

/-- Sum of the returned relocation quantities out of `port` for one type
on (0-based) day `t`. -/
def reloc_outflow (relocs : List Relocation) (port ctype : String) (t : Nat) : Int :=
  reloc_sum (fun r => r.from_port == port && (r.container_type == ctype && r.day == t + 1)) relocs

/-- Sum of the returned relocation quantities on one ordered port pair
for one type on (0-based) day `t`. -/
def reloc_pair_flow (relocs : List Relocation) (fp tp ct : String) (t : Nat) : Int :=
  reloc_sum (fun r =>
    (r.from_port == fp && r.to_port == tp) && (r.container_type == ct && r.day == t + 1)) relocs

/-- `solver.Objective().Value()` of the redistribution model: storage
costs plus transportation costs (default route cost 50). -/
def objective_value (net : ContainerOptimizer)
    (flow : String → String → String → Nat → Int)
    (storage : String → String → Nat → Int) : Int :=
  ((port_names net).map (fun p =>
    ((container_types net).map (fun ct =>
      ((List.range time_horizon).map (fun t =>
        port_storage_cost net p * storage p ct t)).sum)).sum)).sum
  + ((port_names net).map (fun fp =>
      ((port_names net).map (fun tp =>
        if fp == tp then 0
        else ((container_types net).map (fun ct =>
          ((List.range time_horizon).map (fun t =>
            route_cost_lookup net.routes fp tp * flow fp tp ct t)).sum)).sum)).sum)).sum

/-- `_generate_recommendations` (the `"${total:,.2f}"` float formatting
is not modelled; the cost value itself is interpolated). -/
def _generate_recommendations (relocations : List Relocation) (total_cost : Int) :
    List String :=
  (if relocations.isEmpty then []
   else
     let urgent := relocations.filter (fun r => r.priority == "high")
     let u := urgent.length
     let n := relocations.length
     (if urgent.isEmpty then []
      else [s!"🚨 {u} urgent relocations needed within 3 days"]) ++
     [s!"📦 Total optimized movements: {n} container relocations"]) ++
  [s!"💰 Estimated total cost: ${total_cost}"]

/-- The fallback dict built by `_create_fallback_solution`. -/
structure FallbackSolution where
  status : String
  relocations : List Relocation
  recommendations : List String
deriving DecidableEq

/-- `_create_fallback_solution`. -/
def _create_fallback_solution : FallbackSolution :=
  ⟨"fallback", [],
    ["Optimization solver failed - using simple heuristics",
     "Consider manual review of container distribution",
     "Check data quality and constraints"]⟩

/-- The redistribution-mode result dict; `none` models an absent key. -/
structure RedistributionResult where
  status : Option String
  total_cost : Option Int
  relocations : Option (List Relocation)
  storage_plan : Option (List (String × List (String × List Int)))
  recommendations : Option (List String)
  error : Option String
  fallback_solution : Option FallbackSolution
deriving DecidableEq

/-- `_extract_redistribution_solution`. -/
def _extract_redistribution_solution (net : ContainerOptimizer)
    (flow : String → String → String → Nat → Int)
    (storage : String → String → Nat → Int) : RedistributionResult :=
  let relocs := extract_relocations net flow
  let cost := objective_value net flow storage
  ⟨some "optimal", some cost, some relocs, some (extract_storage_plan net storage),
    some (_generate_recommendations relocs cost), none, none⟩

/-- Outcome of the redistribution solve (the SCIP backend is external).
`solved status flow storage` models `solver.Solve()` returning `status`
with the given variable values. -/
inductive RedistSolve where
  | unavailable
  | excn (msg : String)
  | solved (status : Nat) (flow : String → String → String → Nat → Int)
      (storage : String → String → Nat → Int)

/-- `optimize_container_redistribution`.  Note the three failure shapes:
no solver (bare error, no fallback key), non-optimal status (error plus
fallback), exception (error plus fallback). -/
def optimize_container_redistribution (net : ContainerOptimizer)
    (solve : RedistSolve) : RedistributionResult :=
  match solve with
  | .unavailable => ⟨none, none, none, none, none, some "SCIP solver not available", none⟩
  | .excn msg => ⟨none, none, none, none, none, some msg, some _create_fallback_solution⟩
  | .solved status flow storage =>
    if status = OPTIMAL then _extract_redistribution_solution net flow storage
    else ⟨none, none, none, none, none,
      some ("Optimization failed with status: " ++ toString status),
      some _create_fallback_solution⟩

/-! ## Routing optimizer (`optimize_vehicle_routing`) -/

/-- One relocation task dict (`from_port`, `to_port`, `container_count`)
as consumed by `optimize_vehicle_routing`. -/
structure RelocationTask where
  from_port : String
  to_port : String
  container_count : Int
deriving DecidableEq

/-- The routing-mode result dict; `none` models an absent key.  The
empty-batch dict carries `routes`, `total_cost` and `total_distance`;
the success dict carries only `total_distance` and `routes`. -/
structure RoutingResult where
  routes : Option (List (List RelocationTask))
  total_cost : Option Int
  total_distance : Option Int
  error : Option String
deriving DecidableEq

/-- Outcome of the routing search (the CP routing solver is external).
`found route dist` models a solution whose depot-to-depot walk visits
the given tasks in order with objective value `dist`, as walked by
`_extract_routing_solution`. -/
inductive RoutingSolve where
  | failed
  | excn (msg : String)
  | found (route : List RelocationTask) (dist : Int)

/-- `optimize_vehicle_routing`.  The distance and demand callbacks are
registered on the external solver (they read `routes` and the task
`container_count`s); they influence only which outcome the solver
produces, so they appear here only through the outcome parameter.  The
empty-batch short circuit `{"routes": [], "total_cost": 0,
"total_distance": 0}` answers before the routing model is built. -/
def optimize_vehicle_routing (_routes : List Route)
    (relocations : List RelocationTask) (solve : RoutingSolve) : RoutingResult :=
  if relocations.isEmpty then ⟨some [], some 0, some 0, none⟩
  else
    match solve with
    | .failed => ⟨none, none, none, some "No solution found for vehicle routing"⟩
    | .excn msg => ⟨none, none, none, some msg⟩
    | .found route dist => ⟨some [route], none, some dist, none⟩

/-! ## `load_data` and the input payload -/

/-- A `ports` entry of the JSON payload: each field is `none` when the
key is absent; `port_data[key]` on an absent key raises, which
`load_data` turns into `False`. -/
structure RawPort where
  name : Option String
  current_empty : Option Int
  capacity : Option Int
  lstm_forecast : Option (List Int)
  storage_cost : Option Int
  handling_cost : Option Int
  lat : Option Int
  lng : Option Int
deriving DecidableEq

/-- A `containers` entry of the payload.  `next_booking_port` is read
with `.get`, so its absence never fails. -/
structure RawContainer where
  id : Option String
  type : Option String
  current_port : Option String
  dwell_time : Option Int
  next_booking_port : Option String
  priority : Option Int
deriving DecidableEq

/-- A `routes` entry of the payload (`from_key` and `to_key` stand for
the JSON keys `from` and `to`; `from` is a Lean keyword). -/
structure RawRoute where
  from_key : Option String
  to_key : Option String
  distance : Option Int
  cost : Option Int
  transit_time : Option Int
  capacity : Option Int
deriving DecidableEq

/-- The field reads `load_data` performs on one port entry: succeeds iff
every required key is present. -/
def parse_port (r : RawPort) : Option Port :=
  match r.name, r.current_empty, r.capacity, r.lstm_forecast,
      r.storage_cost, r.handling_cost, r.lat, r.lng with
  | some n, some ce, some cap, some fc, some sc, some hc, some la, some lo =>
    some ⟨n, ce, cap, fc, sc, hc, (la, lo)⟩
  | _, _, _, _, _, _, _, _ => none

/-- The field reads `load_data` performs on one container entry. -/
def parse_container (r : RawContainer) : Option Container :=
  match r.id, r.type, r.current_port, r.dwell_time, r.priority with
  | some i, some ty, some cp, some dt, some pr =>
    some ⟨i, ty, cp, dt, r.next_booking_port, pr⟩
  | _, _, _, _, _ => none

/-- The field reads `load_data` performs on one route entry. -/
def parse_route (r : RawRoute) : Option Route :=
  match r.from_key, r.to_key, r.distance, r.cost, r.transit_time, r.capacity with
  | some f, some t, some d, some c, some tt, some cap =>
    some ⟨f, t, d, c, tt, cap⟩
  | _, _, _, _, _, _ => none

/-- The JSON payload: the three collection keys, each possibly absent
(`data.get(key, [])` defaults an absent key to the empty list). -/
structure Payload where
  ports : Option (List RawPort)
  containers : Option (List RawContainer)
  routes : Option (List RawRoute)
deriving DecidableEq

/-- `load_data`: `True` iff every declared entry of every collection has
all its required fields; a missing required field raises inside the
`try`, which returns `False`. -/
def load_data (p : Payload) : Bool :=
  ((p.ports.getD []).all (fun r => (parse_port r).isSome)) &&
  ((p.containers.getD []).all (fun r => (parse_container r).isSome)) &&
  ((p.routes.getD []).all (fun r => (parse_route r).isSome))

/-- The optimizer state after a successful `load_data` (when `load_data`
returns `True`, every entry parses and `filterMap` keeps them all). -/
def loaded_network (p : Payload) : ContainerOptimizer :=
  ⟨(p.ports.getD []).filterMap parse_port,
   (p.containers.getD []).filterMap parse_container,
   (p.routes.getD []).filterMap parse_route⟩

/-! ## The CLI `main` -/

/-- The result value `main` serializes to standard output on the success
path, one constructor per `optimization_type` branch. -/
inductive DispatchResult where
  | redistribution (r : RedistributionResult)
  | routing (r : RoutingResult)
  | assignment (r : AssignmentResult)
  | unknown_type (err : String)
deriving DecidableEq

/-- One printed line/object.  `load_error_json` is the literal JSON
error object printed when `load_data` fails; `load_log` is the plain
text line `load_data` itself writes to stderr; `progress` is the
stdout progress line `optimize_container_redistribution` prints right
before `solver.Solve()` (source line 236); `opt_error_log`,
`routing_error_log` and `assignment_error_log` are the plain stderr
lines each optimizer prints when it catches an exception (source lines
249, 324, 386); `error_json` is the JSON object
`json.dumps(\x7b"error": str(e)\x7d)` of the top-level handler;
`result_json` is `json.dumps(result, indent=2)`. -/
inductive PrintedItem where
  | usage
  | load_error_json
  | load_log
  | progress
  | opt_error_log
  | routing_error_log
  | assignment_error_log
  | result_json (r : DispatchResult)
  | error_json (msg : String)
deriving DecidableEq

/-- Whether a printed item is a JSON error object. -/
def is_json_error_object : PrintedItem → Bool
  | .load_error_json => true
  | .error_json _ => true
  | _ => false

/-- The observable outcome of one `main` invocation. -/
structure MainOutput where
  stdout : List PrintedItem
  stderr : List PrintedItem
  exit_code : Nat
deriving DecidableEq

/-- One `main` invocation scenario: missing argument, an exception while
opening/parsing the input file, or a parsed request.  A request carries
the payload, the `optimization_type` value (absent key defaults to
`"redistribution"`), the solver outcomes, and the raw `relocations` and
`demands` lists the routing/assignment branches read from the input.
`rexcn_after` records, for a redistribution exception outcome, whether
the exception was raised after the progress print of source line 236
(during solve/extraction) or before it (during model construction);
the progress line appears on stdout only in the former case. -/
inductive MainInput where
  | no_args
  | read_failure (msg : String)
  | request (p : Payload) (opt_type : Option String) (rsolve : RedistSolve)
      (rexcn_after : Bool) (vsolve : RoutingSolve) (asolve : AssignSolve)
      (relocations : List RelocationTask) (demands : List DemandReq)

/-- Projection of a loaded container to the fields the assignment branch
reads (post-`load_data`, the raw container dicts all carry them). -/
def container_req_of (c : Container) : ContainerReq :=
  ⟨c.id, c.type, c.current_port⟩

/-- The `optimization_type` dispatch of `main` on the success path. -/
def main_dispatch (p : Payload) (opt_type : Option String) (rsolve : RedistSolve)
    (vsolve : RoutingSolve) (asolve : AssignSolve)
    (relocations : List RelocationTask) (demands : List DemandReq) : DispatchResult :=
  let net := loaded_network p
  let ot := opt_type.getD "redistribution"
  if ot = "redistribution" then
    .redistribution (optimize_container_redistribution net rsolve)
  else if ot = "routing" then
    .routing (optimize_vehicle_routing net.routes relocations vsolve)
  else if ot = "assignment" then
    .assignment (optimize_assignment net.routes
      (net.containers.map container_req_of) demands asolve)
  else .unknown_type ("Unknown optimization type: " ++ ot)

/-- The stdout lines the dispatched optimizer itself prints before
`main` prints the result.  Only `optimize_container_redistribution`
prints to stdout: the progress line of source line 236, reached for
every outcome except solver-unavailable (where the function returns
before the `try` block); for an exception outcome the line was printed
iff the exception was raised after it (`rexcn_after`).  The routing and
assignment optimizers print nothing to stdout. -/
def main_callee_stdout (opt_type : Option String) (rsolve : RedistSolve)
    (rexcn_after : Bool) : List PrintedItem :=
  if opt_type.getD "redistribution" = "redistribution" then
    match rsolve with
    | .unavailable => []
    | .excn _ => if rexcn_after then [.progress] else []
    | .solved _ _ _ => [.progress]
  else []

/-- The stderr lines the dispatched optimizer itself prints: each
optimizer logs a caught exception to stderr (source lines 249, 324,
386) and prints nothing there otherwise; the routing and assignment
empty-input short circuits return before anything can raise. -/
def main_callee_stderr (p : Payload) (opt_type : Option String) (rsolve : RedistSolve)
    (vsolve : RoutingSolve) (asolve : AssignSolve)
    (relocations : List RelocationTask) (demands : List DemandReq) : List PrintedItem :=
  let ot := opt_type.getD "redistribution"
  if ot = "redistribution" then
    match rsolve with
    | .excn _ => [.opt_error_log]
    | _ => []
  else if ot = "routing" then
    if relocations.isEmpty then []
    else
      match vsolve with
      | .excn _ => [.routing_error_log]
      | _ => []
  else if ot = "assignment" then
    if (((loaded_network p).containers.map container_req_of).isEmpty || demands.isEmpty) then []
    else
      match asolve with
      | .excn _ => [.assignment_error_log]
      | _ => []
  else []

/-- `main`.  On a load failure the JSON error object goes to standard
output (that `print` call has no `file=sys.stderr`) while `load_data`
has already written its plain log line to stderr, and the process exits
1; on the success path standard output carries whatever the dispatched
optimizer printed there (the redistribution progress line) followed by
the result JSON, standard error carries the optimizer's exception log
when one was caught, and the process exits 0. -/
def main_run (inp : MainInput) : MainOutput :=
  match inp with
  | .no_args => ⟨[], [.usage], 1⟩
  | .read_failure msg => ⟨[], [.error_json msg], 1⟩
  | .request p opt_type rsolve rexcn_after vsolve asolve relocations demands =>
    if load_data p then
      ⟨main_callee_stdout opt_type rsolve rexcn_after
          ++ [.result_json (main_dispatch p opt_type rsolve vsolve asolve relocations demands)],
        main_callee_stderr p opt_type rsolve vsolve asolve relocations demands, 0⟩
    else ⟨[.load_error_json], [.load_log], 1⟩

/-! ## Concrete instances used by witnesses and counterexamples -/

/-- A zero flow assignment. -/
def w_flow : String → String → String → Nat → Int := fun _ _ _ _ => 0

/-- A constant storage assignment keeping the one container at port A. -/
def w_storage : String → String → Nat → Int := fun port ctype _ =>
  if port == "A" && ctype == "20GP" then 1 else 0

/-- A two-port network with one 20GP container at port A and no routes. -/
def w_net : ContainerOptimizer :=
  ⟨[⟨"A", 1, 10, [0, 0, 0, 0, 0, 0, 0], 0, 0, (0, 0)⟩,
    ⟨"B", 0, 10, [0, 0, 0, 0, 0, 0, 0], 0, 0, (0, 0)⟩],
   [⟨"CONT1", "20GP", "A", 0, none, 5⟩],
   []⟩

/-- One assignment-mode container dict. -/
def w_creq : ContainerReq := ⟨"CONT1", "20GP", "A"⟩

/-- One assignment-mode container dict of a type outside the
compatibility table. -/
def w_creq_unknown : ContainerReq := ⟨"CX", "45G1", "A"⟩

/-- One demand dict. -/
def w_dreq : DemandReq := ⟨"D1", "B", "20GP", some 1⟩

/-- The solver solution assigning container 0 to demand 0. -/
def w_x : Nat → Nat → Bool := fun i j => i == 0 && j == 0

/-- The all-zero solver solution. -/
def w_xfalse : Nat → Nat → Bool := fun _ _ => false

/-- A port entry lacking the required `name` key. -/
def bad_raw_port : RawPort := ⟨none, some 0, some 0, some [], some 0, some 0, some 0, some 0⟩

/-- A payload whose single port entry lacks a required field. -/
def bad_payload : Payload := ⟨some [bad_raw_port], none, none⟩

/-! ## List-sum helper lemmas -/

theorem reloc_sum_nil (q : Relocation → Bool) : reloc_sum q [] = 0 := rfl

theorem reloc_sum_cons (q : Relocation → Bool) (r : Relocation) (l : List Relocation) :
    reloc_sum q (r :: l) = (if q r then r.quantity else 0) + reloc_sum q l := by
  cases hq : q r <;> simp [reloc_sum, List.filter_cons, hq]

theorem reloc_sum_append (q : Relocation → Bool) (l l' : List Relocation) :
    reloc_sum q (l ++ l') = reloc_sum q l + reloc_sum q l' := by
  simp [reloc_sum, List.filter_append]

theorem reloc_sum_flatMap {α : Type} (q : Relocation → Bool) (l : List α)
    (f : α → List Relocation) :
    reloc_sum q (l.flatMap f) = (l.map (fun a => reloc_sum q (f a))).sum := by
  induction l with
  | nil => rfl
  | cons a l ih => simp [List.flatMap_cons, reloc_sum_append, ih]

theorem reloc_sum_eq_zero {q : Relocation → Bool} {l : List Relocation}
    (h : ∀ r ∈ l, q r = false) : reloc_sum q l = 0 := by
  induction l with
  | nil => rfl
  | cons r l ih =>
    rw [reloc_sum_cons, h r (List.mem_cons_self r l),
      ih (fun r' hr' => h r' (List.mem_cons_of_mem r hr'))]
    simp

theorem reloc_sum_filterMap {α : Type} (q : Relocation → Bool) (l : List α)
    (g : α → Option Relocation) :
    reloc_sum q (l.filterMap g) =
      (l.map (fun a =>
        match g a with
        | some r => if q r then r.quantity else 0
        | none => 0)).sum := by
  induction l with
  | nil => rfl
  | cons a l ih =>
    rw [List.filterMap_cons]
    cases hg : g a with
    | none => simpa [hg] using ih
    | some r => rw [reloc_sum_cons]; simp [hg, ih]

theorem sum_map_delta {α : Type} [DecidableEq α] {l : List α} {a : α} (f : α → Int)
    (hl : l.Nodup) (ha : a ∈ l) :
    (l.map (fun b => if b = a then f b else 0)).sum = f a := by
  induction l with
  | nil => cases ha
  | cons b t ih =>
    obtain ⟨hb, ht⟩ := List.nodup_cons.mp hl
    rw [List.map_cons, List.sum_cons]
    rcases List.mem_cons.mp ha with h | h
    · have hz : (t.map (fun c => if c = a then f c else 0)).sum = 0 := by
        apply List.sum_eq_zero
        intro x hx
        obtain ⟨c, hc, rfl⟩ := List.mem_map.mp hx
        have hca : c ≠ a := by
          intro hca
          apply hb
          rw [← h, ← hca]
          exact hc
        simp [hca]
      rw [hz, if_pos h.symm, add_zero, ← h]
    · have hba : b ≠ a := by
        intro hba
        apply hb
        rw [hba]
        exact h
      rw [if_neg hba, zero_add]
      exact ih ht h

theorem sum_map_ite_zero {α : Type} [DecidableEq α] (l : List α) (a : α) (f : α → Int) :
    (l.map (fun b => if b = a then 0 else f b)).sum =
      ((l.filter (fun b => b != a)).map f).sum := by
  induction l with
  | nil => rfl
  | cons b t ih => by_cases hb : b = a <;> simp [List.filter_cons, hb, ih]

/-! ## Relating the extracted relocations to the flow variables -/

theorem mem_reloc_entries {flow : String → String → String → Nat → Int}
    {fp tp ct : String} {r : Relocation} (h : r ∈ reloc_entries_for flow fp tp ct) :
    r.from_port = fp ∧ r.to_port = tp ∧ r.container_type = ct := by
  unfold reloc_entries_for at h
  obtain ⟨t', _, hg⟩ := List.mem_filterMap.mp h
  by_cases hpos : 0 < flow fp tp ct t'
  · rw [if_pos hpos] at hg
    injection hg with hg
    subst hg
    exact ⟨rfl, rfl, rfl⟩
  · simp [hpos] at hg

theorem mem_ct_block {flow : String → String → String → Nat → Int}
    {fp tp : String} {CT : List String} {r : Relocation}
    (h : r ∈ CT.flatMap (fun ct => reloc_entries_for flow fp tp ct)) :
    r.from_port = fp ∧ r.to_port = tp := by
  obtain ⟨ct, _, hr⟩ := List.mem_flatMap.mp h
  exact ⟨(mem_reloc_entries hr).1, (mem_reloc_entries hr).2.1⟩

/-- The contribution of one `(fp, tp)` block of the extraction to a
relocation sum whose predicate fixes the type `ct` and the 1-based day
`t + 1` and additionally tests `base`: if `base` accepts the one
surviving entry, the block contributes exactly `flow fp tp ct t`. -/
theorem reloc_sum_block {flow : String → String → String → Nat → Int}
    {fp tp ct : String} {t : Nat} (base : Relocation → Bool)
    {CT : List String} (hCT : CT.Nodup) (hct : ct ∈ CT) (ht : t < time_horizon)
    (hnn : 0 ≤ flow fp tp ct t)
    (hbase : base ⟨fp, tp, ct, flow fp tp ct t, t + 1,
      if t ≤ 2 then "high" else "medium"⟩ = true) :
    reloc_sum (fun r => base r && (r.container_type == ct && r.day == t + 1))
      (CT.flatMap (fun c => reloc_entries_for flow fp tp c)) = flow fp tp ct t := by
  rw [reloc_sum_flatMap]
  have hcongr : ∀ c ∈ CT,
      reloc_sum (fun r => base r && (r.container_type == ct && r.day == t + 1))
        (reloc_entries_for flow fp tp c)
      = if c = ct then flow fp tp ct t else 0 := by
    intro c hc
    by_cases hcc : c = ct
    · subst hcc
      rw [if_pos rfl]
      unfold reloc_entries_for
      rw [reloc_sum_filterMap]
      have hpt : ∀ t' ∈ List.range time_horizon,
          (match
            (if 0 < flow fp tp c t' then
              some (⟨fp, tp, c, flow fp tp c t', t' + 1,
                if t' ≤ 2 then "high" else "medium"⟩ : Relocation)
            else none) with
          | some r => if base r && (r.container_type == c && r.day == t + 1)
              then r.quantity else 0
          | none => 0)
          = if t' = t then flow fp tp c t' else 0 := by
        intro t' _
        by_cases hpos : 0 < flow fp tp c t'
        · rw [if_pos hpos]
          by_cases htt : t' = t
          · rw [htt]
            simp [hbase]
          · have hne : (t' + 1 == t + 1) = false := by
              simp
              omega
            simp [hne, htt]
        · rw [if_neg hpos]
          by_cases htt : t' = t
          · rw [htt] at hpos
            have h0 : flow fp tp c t = 0 := by omega
            simp [htt, h0]
          · simp [htt]
      rw [List.map_congr_left hpt]
      exact sum_map_delta (fun t' => flow fp tp c t') (List.nodup_range time_horizon)
        (List.mem_range.mpr ht)
    · rw [if_neg hcc]
      apply reloc_sum_eq_zero
      intro r hr
      have hty := (mem_reloc_entries hr).2.2
      have : (r.container_type == ct) = false := by
        simp [hty, hcc]
      simp [this]
  rw [List.map_congr_left hcongr]
  exact sum_map_delta (fun c => flow fp tp ct t) hCT hct

/-- The relocation inflow read back from the returned `relocations` list
equals the inflow of the underlying flow variables.  Dropped entries are
exactly the zero flows (flows are nonnegative in any returned solution),
so dropping them does not change the sums.  `hnd` records that port
names are Python dict keys, hence distinct. -/
theorem reloc_inflow_extract (net : ContainerOptimizer)
    (flow : String → String → String → Nat → Int)
    (hnd : (port_names net).Nodup)
    (hnn : ∀ fp ∈ port_names net, ∀ tp ∈ port_names net, fp ≠ tp →
      ∀ ct ∈ container_types net, ∀ t, t < time_horizon → 0 ≤ flow fp tp ct t)
    (p : String) (hp : p ∈ port_names net)
    (ct : String) (hct : ct ∈ container_types net)
    (t : Nat) (ht : t < time_horizon) :
    reloc_inflow (extract_relocations net flow) p ct t = flow_inflow net flow p ct t := by
  have hCT : (container_types net).Nodup := List.nodup_dedup _
  unfold reloc_inflow extract_relocations
  simp only [reloc_sum_flatMap]
  have h1 : ∀ fp ∈ port_names net,
      ((port_names net).map (fun tp =>
        reloc_sum (fun r => r.to_port == p && (r.container_type == ct && r.day == t + 1))
          (if fp == tp then []
           else (container_types net).flatMap (fun c => reloc_entries_for flow fp tp c)))).sum
      = if fp = p then 0 else flow fp p ct t := by
    intro fp hfp
    have h2 : ∀ tp ∈ port_names net,
        reloc_sum (fun r => r.to_port == p && (r.container_type == ct && r.day == t + 1))
          (if fp == tp then []
           else (container_types net).flatMap (fun c => reloc_entries_for flow fp tp c))
        = if tp = p then (if fp = p then 0 else flow fp p ct t) else 0 := by
      intro tp htp
      by_cases hfptp : fp = tp
      · subst hfptp
        by_cases hfp_p : fp = p <;> simp [reloc_sum_nil, hfp_p]
      · rw [if_neg (by simp [hfptp])]
        by_cases htpp : tp = p
        · have hfp_p : fp ≠ p := fun h => hfptp (h.trans htpp.symm)
          rw [if_pos htpp, if_neg hfp_p, htpp]
          exact reloc_sum_block (fun r => r.to_port == p) hCT hct ht
            (hnn fp hfp p hp hfp_p ct hct t ht) (by simp)
        · rw [if_neg htpp]
          apply reloc_sum_eq_zero
          intro r hr
          have h2p := (mem_ct_block hr).2
          have hfalse : (r.to_port == p) = false := by simp [h2p, htpp]
          simp [hfalse]
    rw [List.map_congr_left h2]
    exact sum_map_delta (fun _ => if fp = p then 0 else flow fp p ct t) hnd hp
  rw [List.map_congr_left h1, sum_map_ite_zero (port_names net) p (fun fp => flow fp p ct t)]
  rfl

/-- The relocation outflow read back from the returned `relocations`
list equals the outflow of the underlying flow variables. -/
theorem reloc_outflow_extract (net : ContainerOptimizer)
    (flow : String → String → String → Nat → Int)
    (hnd : (port_names net).Nodup)
    (hnn : ∀ fp ∈ port_names net, ∀ tp ∈ port_names net, fp ≠ tp →
      ∀ ct ∈ container_types net, ∀ t, t < time_horizon → 0 ≤ flow fp tp ct t)
    (p : String) (hp : p ∈ port_names net)
    (ct : String) (hct : ct ∈ container_types net)
    (t : Nat) (ht : t < time_horizon) :
    reloc_outflow (extract_relocations net flow) p ct t = flow_outflow net flow p ct t := by
  have hCT : (container_types net).Nodup := List.nodup_dedup _
  unfold reloc_outflow extract_relocations
  simp only [reloc_sum_flatMap]
  have h1 : ∀ fp ∈ port_names net,
      ((port_names net).map (fun tp =>
        reloc_sum (fun r => r.from_port == p && (r.container_type == ct && r.day == t + 1))
          (if fp == tp then []
           else (container_types net).flatMap (fun c => reloc_entries_for flow fp tp c)))).sum
      = if fp = p then
          (((port_names net).filter (fun other => other != p)).map
            (fun other => flow p other ct t)).sum
        else 0 := by
    intro fp hfp
    by_cases hfp_p : fp = p
    · rw [if_pos hfp_p, hfp_p]
      have h2 : ∀ tp ∈ port_names net,
          reloc_sum (fun r => r.from_port == p && (r.container_type == ct && r.day == t + 1))
            (if p == tp then []
             else (container_types net).flatMap (fun c => reloc_entries_for flow p tp c))
          = if tp = p then 0 else flow p tp ct t := by
        intro tp htp
        by_cases htpp : p = tp
        · rw [← htpp]
          simp [reloc_sum_nil]
        · rw [if_neg (by simp [htpp]), if_neg (fun h => htpp h.symm)]
          exact reloc_sum_block (fun r => r.from_port == p) hCT hct ht
            (hnn p hp tp htp htpp ct hct t ht) (by simp)
      rw [List.map_congr_left h2]
      exact sum_map_ite_zero (port_names net) p (fun tp => flow p tp ct t)
    · rw [if_neg hfp_p]
      apply List.sum_eq_zero
      intro x hx
      obtain ⟨tp, htp, rfl⟩ := List.mem_map.mp hx
      by_cases hfptp : fp = tp
      · simp [hfptp, reloc_sum_nil]
      · rw [if_neg (by simp [hfptp])]
        apply reloc_sum_eq_zero
        intro r hr
        have h1p := (mem_ct_block hr).1
        have hfalse : (r.from_port == p) = false := by simp [h1p, hfp_p]
        simp [hfalse]
  rw [List.map_congr_left h1]
  exact sum_map_delta (fun _ =>
    (((port_names net).filter (fun other => other != p)).map
      (fun other => flow p other ct t)).sum) hnd hp

/-- The per-pair relocation quantity read back from the returned
`relocations` list equals the flow variable on that pair/type/day. -/
theorem reloc_pair_flow_extract (net : ContainerOptimizer)
    (flow : String → String → String → Nat → Int)
    (hnd : (port_names net).Nodup)
    (hnn : ∀ fp ∈ port_names net, ∀ tp ∈ port_names net, fp ≠ tp →
      ∀ ct ∈ container_types net, ∀ t, t < time_horizon → 0 ≤ flow fp tp ct t)
    (fa ta : String) (hfa : fa ∈ port_names net) (hta : ta ∈ port_names net)
    (hne : fa ≠ ta)
    (ct : String) (hct : ct ∈ container_types net)
    (t : Nat) (ht : t < time_horizon) :
    reloc_pair_flow (extract_relocations net flow) fa ta ct t = flow fa ta ct t := by
  have hCT : (container_types net).Nodup := List.nodup_dedup _
  unfold reloc_pair_flow extract_relocations
  simp only [reloc_sum_flatMap]
  have h1 : ∀ fp ∈ port_names net,
      ((port_names net).map (fun tp =>
        reloc_sum (fun r =>
          (r.from_port == fa && r.to_port == ta) &&
            (r.container_type == ct && r.day == t + 1))
          (if fp == tp then []
           else (container_types net).flatMap (fun c => reloc_entries_for flow fp tp c)))).sum
      = if fp = fa then flow fa ta ct t else 0 := by
    intro fp hfp
    by_cases hffa : fp = fa
    · rw [if_pos hffa, hffa]
      have h2 : ∀ tp ∈ port_names net,
          reloc_sum (fun r =>
            (r.from_port == fa && r.to_port == ta) &&
              (r.container_type == ct && r.day == t + 1))
            (if fa == tp then []
             else (container_types net).flatMap (fun c => reloc_entries_for flow fa tp c))
          = if tp = ta then flow fa ta ct t else 0 := by
        intro tp htp
        by_cases hfatp : fa = tp
        · rw [← hfatp]
          simp [reloc_sum_nil, hne]
        · rw [if_neg (by simp [hfatp])]
          by_cases htpta : tp = ta
          · rw [if_pos htpta, htpta]
            exact reloc_sum_block (fun r => r.from_port == fa && r.to_port == ta)
              hCT hct ht (hnn fa hfa ta hta hne ct hct t ht) (by simp)
          · rw [if_neg htpta]
            apply reloc_sum_eq_zero
            intro r hr
            have h2p := (mem_ct_block hr).2
            have hfalse : (r.to_port == ta) = false := by simp [h2p, htpta]
            simp [hfalse]
      rw [List.map_congr_left h2]
      exact sum_map_delta (fun _ => flow fa ta ct t) hnd hta
    · rw [if_neg hffa]
      apply List.sum_eq_zero
      intro x hx
      obtain ⟨tp, htp, rfl⟩ := List.mem_map.mp hx
      by_cases hfptp : fp = tp
      · simp [hfptp, reloc_sum_nil]
      · rw [if_neg (by simp [hfptp])]
        apply reloc_sum_eq_zero
        intro r hr
        have h1p := (mem_ct_block hr).1
        have hfalse : (r.from_port == fa) = false := by simp [h1p, hffa]
        simp [hfalse]
  rw [List.map_congr_left h1]
  exact sum_map_delta (fun _ => flow fa ta ct t) hnd hfa

/-! ## Assignment-extraction helper lemmas -/

theorem mem_assigned_pairs {n m : Nat} {x : Nat → Nat → Bool} {pr : Nat × Nat} :
    pr ∈ assigned_pairs n m x ↔ pr.1 < n ∧ pr.2 < m ∧ x pr.1 pr.2 = true := by
  unfold assigned_pairs
  constructor
  · intro h
    obtain ⟨i, hi, hmem⟩ := List.mem_flatMap.mp h
    obtain ⟨j, hj, hg⟩ := List.mem_filterMap.mp hmem
    by_cases hx : x i j = true
    · rw [if_pos hx] at hg
      injection hg with hg
      subst hg
      exact ⟨List.mem_range.mp hi, List.mem_range.mp hj, hx⟩
    · rw [if_neg hx] at hg
      simp at hg
  · rintro ⟨h1, h2, h3⟩
    refine List.mem_flatMap.mpr ⟨pr.1, List.mem_range.mpr h1, ?_⟩
    refine List.mem_filterMap.mpr ⟨pr.2, List.mem_range.mpr h2, ?_⟩
    rw [if_pos h3]

theorem two_le_countP {α : Type} {l : List α} {a b : α}
    (ha : a ∈ l) (hb : b ∈ l) (hab : a ≠ b) {q : α → Bool}
    (hqa : q a = true) (hqb : q b = true) : 2 ≤ l.countP q := by
  rw [List.countP_eq_length_filter]
  have hsub : [a, b] ⊆ l.filter q := by
    intro y hy
    rcases List.mem_cons.mp hy with h | h
    · rw [h]
      exact List.mem_filter.mpr ⟨ha, hqa⟩
    · rcases List.mem_cons.mp h with h' | h'
      · rw [h']
        exact List.mem_filter.mpr ⟨hb, hqb⟩
      · cases h'
  have hnd2 : ([a, b] : List α).Nodup := by simp [hab]
  exact (hnd2.subperm hsub).length_le

/-- A container type outside the compatibility table is compatible with
nothing (`dict.get` falls back to the empty list). -/
theorem compat_unknown_type (ct : String)
    (h : ct ∉ (["20GP", "40GP", "40HC"] : List String)) (rt : String) :
    _is_compatible ct rt = false := by
  simp only [List.mem_cons, List.mem_singleton, not_or] at h
  obtain ⟨h1, h2, h3⟩ := h
  unfold _is_compatible compatibility_map
  rw [if_neg h1, if_neg h2, if_neg (by simpa using h3)]
  rfl

/-! ## Claim C3 -/

/-- Claim C3, counterexample: when the SCIP solver cannot be created,
`optimize_container_redistribution` returns only
`{"error": "SCIP solver not available"}` with no `fallback_solution`
key, so the claim that every failure mode carries a fallback solution
fails on the solver-unavailable branch. -/
theorem redistribution_unavailable_no_fallback_c3 :
    (optimize_container_redistribution w_net RedistSolve.unavailable).error
      = some "SCIP solver not available"
    ∧ (optimize_container_redistribution w_net RedistSolve.unavailable).fallback_solution
      = none :=
  ⟨rfl, rfl⟩

/-- Claim C3 (amended): on a non-optimal solve status or an exception,
`optimize_container_redistribution` returns an error message together
with the fallback solution, whose relocations list is empty and whose
status flag is `"fallback"` (distinct from `"optimal"`), and no
success-shaped fields; when the solver cannot be created it returns
only the error message, with no fallback solution. -/
theorem redistribution_failure_fallback_c3 (net : ContainerOptimizer) (msg : String)
    (status : Nat) (flow : String → String → String → Nat → Int)
    (storage : String → String → Nat → Int) (hs : status ≠ OPTIMAL) :
    ((optimize_container_redistribution net (RedistSolve.excn msg)).error = some msg
      ∧ (optimize_container_redistribution net (RedistSolve.excn msg)).fallback_solution
          = some _create_fallback_solution
      ∧ (optimize_container_redistribution net (RedistSolve.excn msg)).status = none
      ∧ (optimize_container_redistribution net (RedistSolve.excn msg)).relocations = none)
    ∧ ((optimize_container_redistribution net (RedistSolve.solved status flow storage)).error
          = some ("Optimization failed with status: " ++ toString status)
      ∧ (optimize_container_redistribution net
          (RedistSolve.solved status flow storage)).fallback_solution
          = some _create_fallback_solution
      ∧ (optimize_container_redistribution net
          (RedistSolve.solved status flow storage)).status = none
      ∧ (optimize_container_redistribution net
          (RedistSolve.solved status flow storage)).relocations = none)
    ∧ _create_fallback_solution.relocations = []
    ∧ _create_fallback_solution.status = "fallback"
    ∧ "fallback" ≠ "optimal"
    ∧ ((optimize_container_redistribution net RedistSolve.unavailable).error
        = some "SCIP solver not available"
      ∧ (optimize_container_redistribution net RedistSolve.unavailable).fallback_solution
        = none) := by
  have hred :
      optimize_container_redistribution net (RedistSolve.solved status flow storage)
      = ⟨none, none, none, none, none,
          some ("Optimization failed with status: " ++ toString status),
          some _create_fallback_solution⟩ := by
    show (if status = OPTIMAL then _extract_redistribution_solution net flow storage
      else ⟨none, none, none, none, none,
        some ("Optimization failed with status: " ++ toString status),
        some _create_fallback_solution⟩) = _
    rw [if_neg hs]
  refine ⟨⟨rfl, rfl, rfl, rfl⟩, ?_, rfl, rfl, by decide, rfl, rfl⟩
  rw [hred]
  exact ⟨rfl, rfl, rfl, rfl⟩

/-- Claim C3, witness: the amended theorem applied at the concrete
network with exception message `"boom"` and non-optimal status 2. -/
theorem redistribution_failure_fallback_c3_witness :
    (2 : Nat) ≠ OPTIMAL
    ∧ (((optimize_container_redistribution w_net (RedistSolve.excn "boom")).error
          = some "boom"
      ∧ (optimize_container_redistribution w_net (RedistSolve.excn "boom")).fallback_solution
          = some _create_fallback_solution
      ∧ (optimize_container_redistribution w_net (RedistSolve.excn "boom")).status = none
      ∧ (optimize_container_redistribution w_net (RedistSolve.excn "boom")).relocations = none)
    ∧ ((optimize_container_redistribution w_net (RedistSolve.solved 2 w_flow w_storage)).error
          = some ("Optimization failed with status: " ++ toString (2 : Nat))
      ∧ (optimize_container_redistribution w_net
          (RedistSolve.solved 2 w_flow w_storage)).fallback_solution
          = some _create_fallback_solution
      ∧ (optimize_container_redistribution w_net
          (RedistSolve.solved 2 w_flow w_storage)).status = none
      ∧ (optimize_container_redistribution w_net
          (RedistSolve.solved 2 w_flow w_storage)).relocations = none)
    ∧ _create_fallback_solution.relocations = []
    ∧ _create_fallback_solution.status = "fallback"
    ∧ "fallback" ≠ "optimal"
    ∧ ((optimize_container_redistribution w_net RedistSolve.unavailable).error
        = some "SCIP solver not available"
      ∧ (optimize_container_redistribution w_net RedistSolve.unavailable).fallback_solution
        = none)) :=
  ⟨by decide,
   redistribution_failure_fallback_c3 w_net "boom" 2 w_flow w_storage (by decide)⟩

/-! ## Claim C6 -/

/-- Claim C6, counterexample: on an empty relocation batch the code
returns `routes = []` (an empty list of routes), not `routes = [[]]`
(one empty route) as the claim states. -/
theorem routing_empty_batch_routes_value_c6 :
    (optimize_vehicle_routing [] [] RoutingSolve.failed).routes = some []
    ∧ some ([] : List (List RelocationTask)) ≠ some [[]] :=
  ⟨rfl, by decide⟩

/-- Claim C6 (amended): on an empty relocation batch
`optimize_vehicle_routing` returns
`{"routes": [], "total_cost": 0, "total_distance": 0}` — `routes` is the
empty list, not a list holding one empty route — and the result is the
same for every solver outcome, i.e. the routing solver is never
consulted. -/
theorem routing_empty_batch_c6 (routes : List Route) (solve : RoutingSolve) :
    optimize_vehicle_routing routes [] solve = ⟨some [], some 0, some 0, none⟩ :=
  rfl

/-! ## Claim C9 -/

/-- Claim C9, counterexample: with no containers and one demand, the
short-circuit result of `optimize_assignment` has no `unmet_demands`
key at all, while the claim says all input demands are listed there. -/
theorem assignment_empty_no_unmet_c9 :
    (optimize_assignment [] [] [w_dreq] AssignSolve.unavailable).unmet_demands = none
    ∧ ([w_dreq] : List DemandReq) ≠ [] :=
  ⟨rfl, by decide⟩

/-- Claim C9 (amended): when the container list or the demand list is
empty, `optimize_assignment` returns — identically for every solver
outcome, so without invoking the solver — the dict with an empty
`assignments` list and all input containers as `unassigned_containers`,
and with no `unmet_demands` and no `total_cost` key. -/
theorem assignment_empty_shortcircuit_c9 (routes : List Route)
    (containers : List ContainerReq) (demands : List DemandReq) (solve : AssignSolve)
    (h : (containers.isEmpty || demands.isEmpty) = true) :
    optimize_assignment routes containers demands solve
      = ⟨some [], some containers, none, none, none⟩ := by
  unfold optimize_assignment
  rw [if_pos h]

/-- Claim C9, witness: the amended theorem applied to the empty
container list and one demand. -/
theorem assignment_empty_shortcircuit_c9_witness :
    optimize_assignment [] [] [w_dreq] AssignSolve.unavailable
      = ⟨some [], some [], none, none, none⟩ :=
  assignment_empty_shortcircuit_c9 [] [] [w_dreq] AssignSolve.unavailable (by decide)

/-! ## Claim C7 -/

/-- Claim C7: `load_data` treats each missing top-level key (`ports`,
`containers`, `routes`) exactly as the empty collection — in particular
the all-missing payload loads successfully — and whenever some declared
entry lacks a required field (its parse is `none`), `load_data` returns
the failure flag `False`; being a total function into `Bool`, it never
raises. -/
theorem load_data_contract_c7 :
    (∀ p : Payload,
      load_data ⟨none, p.containers, p.routes⟩ = load_data ⟨some [], p.containers, p.routes⟩)
    ∧ (∀ p : Payload,
      load_data ⟨p.ports, none, p.routes⟩ = load_data ⟨p.ports, some [], p.routes⟩)
    ∧ (∀ p : Payload,
      load_data ⟨p.ports, p.containers, none⟩ = load_data ⟨p.ports, p.containers, some []⟩)
    ∧ load_data ⟨none, none, none⟩ = true
    ∧ (∀ (p : Payload) (l : List RawPort) (r : RawPort),
        p.ports = some l → r ∈ l → parse_port r = none → load_data p = false)
    ∧ (∀ (p : Payload) (l : List RawContainer) (r : RawContainer),
        p.containers = some l → r ∈ l → parse_container r = none → load_data p = false)
    ∧ (∀ (p : Payload) (l : List RawRoute) (r : RawRoute),
        p.routes = some l → r ∈ l → parse_route r = none → load_data p = false) := by
  refine ⟨fun p => rfl, fun p => rfl, fun p => rfl, rfl, ?_, ?_, ?_⟩
  · intro p l r hp hr hparse
    unfold load_data
    rw [hp]
    have hall : l.all (fun r => (parse_port r).isSome) = false := by
      apply Bool.eq_false_iff.mpr
      intro hall
      have := List.all_eq_true.mp hall r hr
      rw [hparse] at this
      simp at this
    simp [hall]
  · intro p l r hp hr hparse
    unfold load_data
    rw [hp]
    have hall : l.all (fun r => (parse_container r).isSome) = false := by
      apply Bool.eq_false_iff.mpr
      intro hall
      have := List.all_eq_true.mp hall r hr
      rw [hparse] at this
      simp at this
    simp [hall]
  · intro p l r hp hr hparse
    unfold load_data
    rw [hp]
    have hall : l.all (fun r => (parse_route r).isSome) = false := by
      apply Bool.eq_false_iff.mpr
      intro hall
      have := List.all_eq_true.mp hall r hr
      rw [hparse] at this
      simp at this
    simp [hall]

/-- Claim C7, witness: the empty payload loads; a payload whose port
entry lacks `name` fails with the `False` flag. -/
theorem load_data_contract_c7_witness :
    load_data ⟨none, none, none⟩ = true ∧ load_data bad_payload = false :=
  ⟨load_data_contract_c7.2.2.2.1,
   load_data_contract_c7.2.2.2.2.1 bad_payload [bad_raw_port] bad_raw_port rfl
     (by decide) rfl⟩

/-! ## Claim C8 -/

/-- Claim C8, counterexample: at a payload on which `load_data` fails,
`main` prints nothing JSON-shaped to standard error (only the plain
`load_data` log line goes there; the JSON error object goes to standard
output), contradicting the claim that a JSON error object is printed to
standard error. -/
theorem main_load_error_stream_c8 :
    load_data bad_payload = false
    ∧ (∀ it ∈ (main_run (MainInput.request bad_payload none RedistSolve.unavailable
        false RoutingSolve.failed AssignSolve.unavailable [] [])).stderr,
        is_json_error_object it = false)
    ∧ (main_run (MainInput.request bad_payload none RedistSolve.unavailable
        false RoutingSolve.failed AssignSolve.unavailable [] [])).stdout
        = [PrintedItem.load_error_json]
    ∧ (main_run (MainInput.request bad_payload none RedistSolve.unavailable
        false RoutingSolve.failed AssignSolve.unavailable [] [])).exit_code = 1 := by
  decide

/-- Claim C8 (amended): when `load_data` fails on the payload, `main`
prints the JSON error object to standard output, a plain non-JSON log
line to standard error, and exits 1 (nothing else is printed: the
optimizers have not run yet).  When loading succeeds, `main` exits 0
and standard output is the optimizer's own stdout prints — every one of
which is the redistribution progress line — followed by the dispatched
result as JSON; standard error carries only the optimizer's plain
exception log when one was caught, and in particular nothing
JSON-shaped ever reaches standard error after a successful load. -/
theorem main_output_streams_c8 (p : Payload) (opt_type : Option String)
    (rsolve : RedistSolve) (rexcn_after : Bool) (vsolve : RoutingSolve)
    (asolve : AssignSolve) (relocations : List RelocationTask)
    (demands : List DemandReq) :
    (load_data p = false →
      main_run (MainInput.request p opt_type rsolve rexcn_after vsolve asolve
          relocations demands)
        = ⟨[PrintedItem.load_error_json], [PrintedItem.load_log], 1⟩
      ∧ is_json_error_object PrintedItem.load_error_json = true
      ∧ is_json_error_object PrintedItem.load_log = false)
    ∧ (load_data p = true →
      main_run (MainInput.request p opt_type rsolve rexcn_after vsolve asolve
          relocations demands)
        = ⟨main_callee_stdout opt_type rsolve rexcn_after
            ++ [PrintedItem.result_json
                (main_dispatch p opt_type rsolve vsolve asolve relocations demands)],
           main_callee_stderr p opt_type rsolve vsolve asolve relocations demands, 0⟩
      ∧ (∀ it ∈ main_callee_stdout opt_type rsolve rexcn_after,
          it = PrintedItem.progress)
      ∧ (∀ it ∈ main_callee_stderr p opt_type rsolve vsolve asolve relocations demands,
          is_json_error_object it = false)) := by
  constructor
  · intro h
    refine ⟨?_, rfl, rfl⟩
    simp [main_run, h]
  · intro h
    refine ⟨?_, ?_, ?_⟩
    · simp [main_run, h]
    · intro it hit
      unfold main_callee_stdout at hit
      by_cases hot : opt_type.getD "redistribution" = "redistribution"
      · rw [if_pos hot] at hit
        cases rsolve with
        | unavailable => simp at hit
        | excn msg =>
          cases hb : rexcn_after
          · simp [hb] at hit
          · simp [hb] at hit
            exact hit
        | solved status flow storage =>
          simp at hit
          exact hit
      · rw [if_neg hot] at hit
        simp at hit
    · intro it hit
      simp only [main_callee_stderr] at hit
      by_cases h1 : opt_type.getD "redistribution" = "redistribution"
      · rw [if_pos h1] at hit
        cases rsolve with
        | unavailable => simp at hit
        | excn msg =>
          simp at hit
          rw [hit]
          rfl
        | solved status flow storage => simp at hit
      · rw [if_neg h1] at hit
        by_cases h2 : opt_type.getD "redistribution" = "routing"
        · rw [if_pos h2] at hit
          by_cases h3 : relocations.isEmpty = true
          · rw [if_pos h3] at hit
            simp at hit
          · rw [if_neg h3] at hit
            cases vsolve with
            | failed => simp at hit
            | excn msg =>
              simp at hit
              rw [hit]
              rfl
            | found route dist => simp at hit
        · rw [if_neg h2] at hit
          by_cases h4 : opt_type.getD "redistribution" = "assignment"
          · rw [if_pos h4] at hit
            by_cases h5 : (((loaded_network p).containers.map container_req_of).isEmpty
                || demands.isEmpty) = true
            · rw [if_pos h5] at hit
              simp at hit
            · rw [if_neg h5] at hit
              cases asolve with
              | unavailable => simp at hit
              | excn msg =>
                simp at hit
                rw [hit]
                rfl
              | solved status x => simp at hit
          · rw [if_neg h4] at hit
            simp at hit

/-- Claim C8, witness: the amended theorem applied at the failing
payload, and at the empty (successfully loading) payload in
redistribution mode with a solved outcome, where the progress line
precedes the result on stdout. -/
theorem main_output_streams_c8_witness :
    (main_run (MainInput.request bad_payload none RedistSolve.unavailable
        false RoutingSolve.failed AssignSolve.unavailable [] [])
      = ⟨[PrintedItem.load_error_json], [PrintedItem.load_log], 1⟩
    ∧ is_json_error_object PrintedItem.load_error_json = true
    ∧ is_json_error_object PrintedItem.load_log = false)
    ∧ (main_run (MainInput.request ⟨none, none, none⟩ none
        (RedistSolve.solved 0 w_flow w_storage) false RoutingSolve.failed
        AssignSolve.unavailable [] [])
      = ⟨main_callee_stdout none (RedistSolve.solved 0 w_flow w_storage) false
          ++ [PrintedItem.result_json
              (main_dispatch ⟨none, none, none⟩ none
                (RedistSolve.solved 0 w_flow w_storage) RoutingSolve.failed
                AssignSolve.unavailable [] [])],
         main_callee_stderr ⟨none, none, none⟩ none
           (RedistSolve.solved 0 w_flow w_storage) RoutingSolve.failed
           AssignSolve.unavailable [] [], 0⟩
    ∧ (∀ it ∈ main_callee_stdout none (RedistSolve.solved 0 w_flow w_storage) false,
        it = PrintedItem.progress)
    ∧ (∀ it ∈ main_callee_stderr ⟨none, none, none⟩ none
        (RedistSolve.solved 0 w_flow w_storage) RoutingSolve.failed
        AssignSolve.unavailable [] [],
        is_json_error_object it = false)) :=
  ⟨(main_output_streams_c8 bad_payload none RedistSolve.unavailable false
      RoutingSolve.failed AssignSolve.unavailable [] []).1 (by decide),
   (main_output_streams_c8 ⟨none, none, none⟩ none
      (RedistSolve.solved 0 w_flow w_storage) false RoutingSolve.failed
      AssignSolve.unavailable [] []).2 (by decide)⟩

/-! ## Claim C4 -/

/-- Claim C4: in every assignment solution returned with OPTIMAL status,
the returned `assignments` list is the per-pair extraction of the
solution; each container index appears in at most one selected pair and
each demand index in at most one selected pair (two selected pairs
sharing either index are equal); and every selected pair is
type-compatible — the incompatible pairs are hard-forced to zero by the
`x[i][j] == 0` constraints in `FeasibleAssignment`, which is why no
returned pair can be incompatible. -/
theorem assignment_invariants_c4 (routes : List Route)
    (containers : List ContainerReq) (demands : List DemandReq)
    (x : Nat → Nat → Bool) (hx : FeasibleAssignment containers demands x)
    (hc : containers ≠ []) (hd : demands ≠ []) :
    (optimize_assignment routes containers demands (AssignSolve.solved OPTIMAL x)).assignments
      = some ((assigned_pairs containers.length demands.length x).map (fun pr =>
          make_assignment_entry routes (containers.getD pr.1 dummy_container)
            (demands.getD pr.2 dummy_demand)))
    ∧ (∀ pr ∈ assigned_pairs containers.length demands.length x,
       ∀ qr ∈ assigned_pairs containers.length demands.length x,
         (pr.1 = qr.1 → pr = qr) ∧ (pr.2 = qr.2 → pr = qr))
    ∧ (∀ pr ∈ assigned_pairs containers.length demands.length x,
        _is_compatible (containers.getD pr.1 dummy_container).type
          (demands.getD pr.2 dummy_demand).required_type = true) := by
  obtain ⟨hrow, hcol, hcompat⟩ := hx
  have hce : containers.isEmpty = false := by
    cases containers
    · exact absurd rfl hc
    · rfl
  have hde : demands.isEmpty = false := by
    cases demands
    · exact absurd rfl hd
    · rfl
  refine ⟨?_, ?_, ?_⟩
  · simp [optimize_assignment, hce, hde, _extract_assignment_solution]
  · intro pr hpr qr hqr
    obtain ⟨hp1, hp2, hpx⟩ := mem_assigned_pairs.mp hpr
    obtain ⟨hq1, hq2, hqx⟩ := mem_assigned_pairs.mp hqr
    constructor
    · intro h1
      by_contra hne
      have h2ne : pr.2 ≠ qr.2 := fun h2 => hne (Prod.ext h1 h2)
      have h2c : 2 ≤ (List.range demands.length).countP (fun j => x pr.1 j) :=
        two_le_countP (List.mem_range.mpr hp2) (List.mem_range.mpr hq2) h2ne hpx
          (by rw [h1]; exact hqx)
      have hle := hrow pr.1 hp1
      omega
    · intro h2
      by_contra hne
      have h1ne : pr.1 ≠ qr.1 := fun h1 => hne (Prod.ext h1 h2)
      have h2c : 2 ≤ (List.range containers.length).countP (fun i => x i pr.2) :=
        two_le_countP (List.mem_range.mpr hp1) (List.mem_range.mpr hq1) h1ne hpx
          (by rw [h2]; exact hqx)
      have hle := hcol pr.2 hp2
      omega
  · intro pr hpr
    obtain ⟨hp1, hp2, hpx⟩ := mem_assigned_pairs.mp hpr
    by_contra hcomp
    have hfalse := Bool.eq_false_iff.mpr hcomp
    have hz := hcompat pr.1 hp1 pr.2 hp2 hfalse
    rw [hz] at hpx
    cases hpx

/-- Claim C4, witness: the theorem applied to one compatible
container/demand pair selected by the solution `w_x`. -/
theorem assignment_invariants_c4_witness :
    FeasibleAssignment [w_creq] [w_dreq] w_x
    ∧ ((optimize_assignment [] [w_creq] [w_dreq] (AssignSolve.solved OPTIMAL w_x)).assignments
        = some ((assigned_pairs [w_creq].length [w_dreq].length w_x).map (fun pr =>
            make_assignment_entry [] ([w_creq].getD pr.1 dummy_container)
              ([w_dreq].getD pr.2 dummy_demand)))
      ∧ (∀ pr ∈ assigned_pairs [w_creq].length [w_dreq].length w_x,
         ∀ qr ∈ assigned_pairs [w_creq].length [w_dreq].length w_x,
           (pr.1 = qr.1 → pr = qr) ∧ (pr.2 = qr.2 → pr = qr))
      ∧ (∀ pr ∈ assigned_pairs [w_creq].length [w_dreq].length w_x,
          _is_compatible ([w_creq].getD pr.1 dummy_container).type
            ([w_dreq].getD pr.2 dummy_demand).required_type = true)) :=
  ⟨by unfold FeasibleAssignment; decide,
   assignment_invariants_c4 [] [w_creq] [w_dreq] w_x
     (by unfold FeasibleAssignment; decide) (by decide) (by decide)⟩

/-! ## Claim C5 -/

/-- Claim C5: the assignment cost equals
`10 + transport_cost(first route container.current_port → demand.port, default 0)
+ (1000 if incompatible else 0) − 5 × demand.priority`, and every entry
of a returned OPTIMAL `assignments` list reports exactly that value for
its selected pair. -/
theorem assignment_cost_formula_c5 :
    (∀ (routes : List Route) (container : ContainerReq) (demand : DemandReq),
      _calculate_assignment_cost routes container demand
        = 10 + (match find_route routes container.current_port demand.port with
                | some r => r.transport_cost
                | none => 0)
          + (if _is_compatible container.type demand.required_type then 0 else 1000)
          - 5 * demand.priority.getD 0)
    ∧ (∀ (routes : List Route) (containers : List ContainerReq) (demands : List DemandReq)
        (x : Nat → Nat → Bool) (es : List AssignmentEntry),
        (optimize_assignment routes containers demands (AssignSolve.solved OPTIMAL x)).assignments
          = some es →
        ∀ pr ∈ assigned_pairs containers.length demands.length x,
          make_assignment_entry routes (containers.getD pr.1 dummy_container)
              (demands.getD pr.2 dummy_demand) ∈ es
          ∧ (make_assignment_entry routes (containers.getD pr.1 dummy_container)
              (demands.getD pr.2 dummy_demand)).cost
            = 10 + (match find_route routes (containers.getD pr.1 dummy_container).current_port
                      (demands.getD pr.2 dummy_demand).port with
                    | some r => r.transport_cost
                    | none => 0)
              + (if _is_compatible (containers.getD pr.1 dummy_container).type
                    (demands.getD pr.2 dummy_demand).required_type then 0 else 1000)
              - 5 * (demands.getD pr.2 dummy_demand).priority.getD 0) := by
  have hformula : ∀ (routes : List Route) (container : ContainerReq) (demand : DemandReq),
      _calculate_assignment_cost routes container demand
        = 10 + (match find_route routes container.current_port demand.port with
                | some r => r.transport_cost
                | none => 0)
          + (if _is_compatible container.type demand.required_type then 0 else 1000)
          - 5 * demand.priority.getD 0 := by
    intro routes container demand
    simp only [_calculate_assignment_cost]
    omega
  refine ⟨hformula, ?_⟩
  intro routes containers demands x es hes pr hpr
  obtain ⟨hp1, hp2, hpx⟩ := mem_assigned_pairs.mp hpr
  have hce : containers.isEmpty = false := by
    cases containers
    · simp at hp1
    · rfl
  have hde : demands.isEmpty = false := by
    cases demands
    · simp at hp2
    · rfl
  have hopt : optimize_assignment routes containers demands (AssignSolve.solved OPTIMAL x)
      = _extract_assignment_solution routes containers demands x := by
    simp [optimize_assignment, hce, hde]
  rw [hopt] at hes
  have hes' : (assigned_pairs containers.length demands.length x).map (fun qr =>
      make_assignment_entry routes (containers.getD qr.1 dummy_container)
        (demands.getD qr.2 dummy_demand)) = es := by
    simp only [_extract_assignment_solution] at hes
    exact Option.some.inj hes
  constructor
  · rw [← hes']
    exact List.mem_map.mpr ⟨pr, hpr, rfl⟩
  · exact hformula routes _ _

/-- Claim C5, witness: the second part of the theorem applied to the
one-pair optimal solution; the reported cost there is
`10 + 0 + 0 − 5·1`. -/
theorem assignment_cost_formula_c5_witness :
    make_assignment_entry [] w_creq w_dreq ∈ [make_assignment_entry [] w_creq w_dreq]
    ∧ (make_assignment_entry [] w_creq w_dreq).cost
        = 10 + (match find_route [] w_creq.current_port w_dreq.port with
                | some r => r.transport_cost
                | none => 0)
          + (if _is_compatible w_creq.type w_dreq.required_type then 0 else 1000)
          - 5 * w_dreq.priority.getD 0 :=
  assignment_cost_formula_c5.2 [] [w_creq] [w_dreq] w_x
    [make_assignment_entry [] w_creq w_dreq] (by decide) (0, 0) (by decide)

/-! ## Claim C10 -/

/-- Claim C10: a container whose type is outside `{20GP, 40GP, 40HC}` is
compatible with no required type, so in every feasible (in particular
every returned OPTIMAL) solution it is selected in no pair and it is
listed among the extracted `unassigned_containers`. -/
theorem unknown_type_unassigned_c10 :
    (∀ ct, ct ∉ (["20GP", "40GP", "40HC"] : List String) →
      ∀ rt, _is_compatible ct rt = false)
    ∧ (∀ (routes : List Route) (containers : List ContainerReq)
        (demands : List DemandReq) (x : Nat → Nat → Bool),
        FeasibleAssignment containers demands x →
        ∀ i, i < containers.length →
        (containers.getD i dummy_container).type ∉ (["20GP", "40GP", "40HC"] : List String) →
        (∀ pr ∈ assigned_pairs containers.length demands.length x, pr.1 ≠ i)
        ∧ containers.getD i dummy_container ∈
            ((_extract_assignment_solution routes containers demands
              x).unassigned_containers.getD [])) := by
  refine ⟨compat_unknown_type, ?_⟩
  intro routes containers demands x hx i hi hty
  obtain ⟨hrow, hcol, hcompat⟩ := hx
  have hnopair : ∀ pr ∈ assigned_pairs containers.length demands.length x, pr.1 ≠ i := by
    intro pr hpr heq
    obtain ⟨hp1, hp2, hpx⟩ := mem_assigned_pairs.mp hpr
    have hfalse : _is_compatible (containers.getD pr.1 dummy_container).type
        (demands.getD pr.2 dummy_demand).required_type = false := by
      rw [heq]
      exact compat_unknown_type _ hty _
    have hz := hcompat pr.1 hp1 pr.2 hp2 hfalse
    rw [hz] at hpx
    cases hpx
  have hnotmem : i ∉ (assigned_pairs containers.length demands.length x).map Prod.fst := by
    intro hmem
    obtain ⟨pr, hpr, hpr1⟩ := List.mem_map.mp hmem
    exact hnopair pr hpr hpr1
  have hcon : ((assigned_pairs containers.length demands.length x).map Prod.fst).contains i
      = false := by
    simp [hnotmem]
  refine ⟨hnopair, ?_⟩
  simp only [_extract_assignment_solution, Option.getD_some]
  refine List.mem_filterMap.mpr ⟨i, List.mem_range.mpr hi, ?_⟩
  rw [hcon]
  simp

/-- Claim C10, witness: the theorem applied to a container of the
unknown type `"45G1"` under the all-zero solution. -/
theorem unknown_type_unassigned_c10_witness :
    _is_compatible "45G1" "20GP" = false
    ∧ ((∀ pr ∈ assigned_pairs [w_creq_unknown].length [w_dreq].length w_xfalse, pr.1 ≠ 0)
      ∧ [w_creq_unknown].getD 0 dummy_container ∈
          ((_extract_assignment_solution [] [w_creq_unknown] [w_dreq]
            w_xfalse).unassigned_containers.getD [])) :=
  ⟨unknown_type_unassigned_c10.1 "45G1" (by decide) "20GP",
   unknown_type_unassigned_c10.2 [] [w_creq_unknown] [w_dreq] w_xfalse
     (by unfold FeasibleAssignment; decide) 0 (by decide) (by decide)⟩

/-! ## Claims C1 and C2 -/

theorem storage_plan_entry_getD (storage : String → String → Nat → Int) (p ct : String)
    (t : Nat) (ht : t < time_horizon) :
    (storage_plan_entry storage p ct).getD t 0 = storage p ct t := by
  unfold storage_plan_entry
  rw [List.getD_eq_getElem?_getD, List.getElem?_map, List.getElem?_range ht]
  rfl

/-- Claim C1: in any solution returned with OPTIMAL status (hence
satisfying every constraint the model added), the returned storage plan
obeys flow conservation against the returned relocation quantities: on
day 0 the storage equals the count of containers of that type currently
at the port plus inflow minus outflow, with no demand subtracted, and on
each later day `t < 7` it equals the previous day plus inflow minus
outflow minus the demand forecast for day `t` (0 past the forecast
length).  Inflow/outflow on (0-based) day `t` are the sums of returned
relocation quantities whose `day` field is `t + 1`, the extraction being
1-based.  `hnd` records that port names are dict keys, hence distinct. -/
theorem flow_conservation_c1 (net : ContainerOptimizer)
    (flow : String → String → String → Nat → Int)
    (storage : String → String → Nat → Int)
    (hnd : (port_names net).Nodup)
    (hf : FeasibleRedistribution net flow storage)
    (p : String) (hp : p ∈ port_names net)
    (ct : String) (hct : ct ∈ container_types net) :
    (optimize_container_redistribution net (RedistSolve.solved OPTIMAL flow storage)).storage_plan
      = some (extract_storage_plan net storage)
    ∧ (optimize_container_redistribution net
        (RedistSolve.solved OPTIMAL flow storage)).relocations
      = some (extract_relocations net flow)
    ∧ (storage_plan_entry storage p ct).getD 0 0
        = (current_inventory net p ct : Int)
          + reloc_inflow (extract_relocations net flow) p ct 0
          - reloc_outflow (extract_relocations net flow) p ct 0
    ∧ (∀ t, t < time_horizon → 0 < t →
        (storage_plan_entry storage p ct).getD t 0
          = (storage_plan_entry storage p ct).getD (t - 1) 0
            + reloc_inflow (extract_relocations net flow) p ct t
            - reloc_outflow (extract_relocations net flow) p ct t
            - lstm_demand net p t) := by
  obtain ⟨hbounds, hsb, hd0, hdt, hcap, hrcap⟩ := hf
  have hnn : ∀ fp ∈ port_names net, ∀ tp ∈ port_names net, fp ≠ tp →
      ∀ c ∈ container_types net, ∀ t, t < time_horizon → 0 ≤ flow fp tp c t :=
    fun fp hfp tp htp hne c hc t ht => (hbounds fp hfp tp htp hne c hc t ht).1
  refine ⟨rfl, rfl, ?_, ?_⟩
  · rw [storage_plan_entry_getD storage p ct 0 (by decide),
      reloc_inflow_extract net flow hnd hnn p hp ct hct 0 (by decide),
      reloc_outflow_extract net flow hnd hnn p hp ct hct 0 (by decide)]
    exact hd0 p hp ct hct
  · intro t ht h0
    rw [storage_plan_entry_getD storage p ct t ht,
      storage_plan_entry_getD storage p ct (t - 1) (by omega),
      reloc_inflow_extract net flow hnd hnn p hp ct hct t ht,
      reloc_outflow_extract net flow hnd hnn p hp ct hct t ht]
    exact hdt p hp ct hct t ht h0

/-- Claim C1, witness: the theorem applied to the two-port network with
one container at A, the zero flow and the constant storage plan. -/
theorem flow_conservation_c1_witness :
    FeasibleRedistribution w_net w_flow w_storage
    ∧ ((optimize_container_redistribution w_net
          (RedistSolve.solved OPTIMAL w_flow w_storage)).storage_plan
        = some (extract_storage_plan w_net w_storage)
      ∧ (optimize_container_redistribution w_net
          (RedistSolve.solved OPTIMAL w_flow w_storage)).relocations
        = some (extract_relocations w_net w_flow)
      ∧ (storage_plan_entry w_storage "A" "20GP").getD 0 0
          = (current_inventory w_net "A" "20GP" : Int)
            + reloc_inflow (extract_relocations w_net w_flow) "A" "20GP" 0
            - reloc_outflow (extract_relocations w_net w_flow) "A" "20GP" 0
      ∧ (∀ t, t < time_horizon → 0 < t →
          (storage_plan_entry w_storage "A" "20GP").getD t 0
            = (storage_plan_entry w_storage "A" "20GP").getD (t - 1) 0
              + reloc_inflow (extract_relocations w_net w_flow) "A" "20GP" t
              - reloc_outflow (extract_relocations w_net w_flow) "A" "20GP" t
              - lstm_demand w_net "A" t)) :=
  ⟨by unfold FeasibleRedistribution; decide,
   flow_conservation_c1 w_net w_flow w_storage (by decide)
     (by unfold FeasibleRedistribution; decide) "A" (by decide) "20GP" (by decide)⟩

/-- Claim C2: in any solution returned with OPTIMAL status, for every
port and day the total storage over container types (read back from the
returned storage plan) is at most the port capacity, and for every
ordered pair of distinct ports and every day the total returned
relocation quantity over container types is at most the `capacity_teu`
of the first matching `Route`, or the default 100 when none matches. -/
theorem capacity_limits_c2 (net : ContainerOptimizer)
    (flow : String → String → String → Nat → Int)
    (storage : String → String → Nat → Int)
    (hnd : (port_names net).Nodup)
    (hf : FeasibleRedistribution net flow storage) :
    (optimize_container_redistribution net (RedistSolve.solved OPTIMAL flow storage)).storage_plan
      = some (extract_storage_plan net storage)
    ∧ (optimize_container_redistribution net
        (RedistSolve.solved OPTIMAL flow storage)).relocations
      = some (extract_relocations net flow)
    ∧ (∀ p ∈ port_names net, ∀ t, t < time_horizon →
        ((container_types net).map (fun ct =>
          (storage_plan_entry storage p ct).getD t 0)).sum ≤ port_capacity net p)
    ∧ (∀ fa ∈ port_names net, ∀ ta ∈ port_names net, fa ≠ ta → ∀ t, t < time_horizon →
        ((container_types net).map (fun ct =>
          reloc_pair_flow (extract_relocations net flow) fa ta ct t)).sum
          ≤ route_capacity_lookup net.routes fa ta) := by
  obtain ⟨hbounds, hsb, hd0, hdt, hcap, hrcap⟩ := hf
  have hnn : ∀ fp ∈ port_names net, ∀ tp ∈ port_names net, fp ≠ tp →
      ∀ c ∈ container_types net, ∀ t, t < time_horizon → 0 ≤ flow fp tp c t :=
    fun fp hfp tp htp hne c hc t ht => (hbounds fp hfp tp htp hne c hc t ht).1
  refine ⟨rfl, rfl, ?_, ?_⟩
  · intro p hp t ht
    have hcong : (container_types net).map (fun ct =>
          (storage_plan_entry storage p ct).getD t 0)
        = (container_types net).map (fun ct => storage p ct t) :=
      List.map_congr_left (fun c _ => storage_plan_entry_getD storage p c t ht)
    rw [hcong]
    exact hcap p hp t ht
  · intro fa hfa ta hta hne t ht
    have hcong : (container_types net).map (fun ct =>
          reloc_pair_flow (extract_relocations net flow) fa ta ct t)
        = (container_types net).map (fun ct => flow fa ta ct t) :=
      List.map_congr_left (fun c hc =>
        reloc_pair_flow_extract net flow hnd hnn fa ta hfa hta hne c hc t ht)
    rw [hcong]
    exact hrcap fa hfa ta hta hne t ht

/-- Claim C2, witness: the theorem applied to the two-port network with
one container at A, the zero flow and the constant storage plan. -/
theorem capacity_limits_c2_witness :
    FeasibleRedistribution w_net w_flow w_storage
    ∧ ((optimize_container_redistribution w_net
          (RedistSolve.solved OPTIMAL w_flow w_storage)).storage_plan
        = some (extract_storage_plan w_net w_storage)
      ∧ (optimize_container_redistribution w_net
          (RedistSolve.solved OPTIMAL w_flow w_storage)).relocations
        = some (extract_relocations w_net w_flow)
      ∧ (∀ p ∈ port_names w_net, ∀ t, t < time_horizon →
          ((container_types w_net).map (fun ct =>
            (storage_plan_entry w_storage p ct).getD t 0)).sum ≤ port_capacity w_net p)
      ∧ (∀ fa ∈ port_names w_net, ∀ ta ∈ port_names w_net, fa ≠ ta →
          ∀ t, t < time_horizon →
          ((container_types w_net).map (fun ct =>
            reloc_pair_flow (extract_relocations w_net w_flow) fa ta ct t)).sum
            ≤ route_capacity_lookup w_net.routes fa ta)) :=
  ⟨by unfold FeasibleRedistribution; decide,
   capacity_limits_c2 w_net w_flow w_storage (by decide)
     (by unfold FeasibleRedistribution; decide)⟩

end ContainerOpt
